import Mathlib

/-
Verification of the statistics-logger delivery engine
(src/app/src/main/core/statisticsLogger.ts).

The engine is embedded shallowly: each TypeScript method becomes a Lean
function over an explicit engine state.  External effects (the network
call, the filesystem, the clock, the random file-name generator, the
connectivity probe) are passed in as explicit oracle arguments, so every
function is executable and deterministic on a given oracle.
-/

namespace StatisticsLogger

/-- Event record built by `log()` in statisticsLogger.ts: the `LogObject`
fields `action`, `date` (Date.now(), integer milliseconds) and optional
`value` attribute map, plus the `osType` origin field spread in from
`defaultLoggerInfo`. -/
structure LogObject where
  action : String
  date : Int
  value : Option (List (String × String))
  osType : String
deriving DecidableEq, Repr

/-- JSON values: the meaning of a `JSON.stringify` output and of a
successful `JSON.parse` result. -/
inductive Json where
  | null : Json
  | bool : Bool → Json
  | num : Int → Json
  | str : String → Json
  | arr : List Json → Json
  | obj : List (String × Json) → Json

/-- The attribute map as it appears inside the serialized event: every
value is a JSON string. -/
def encodeAttrs (kvs : List (String × String)) : List (String × Json) :=
  kvs.map (fun p => (p.1, Json.str p.2))

/-- Reading an attribute object back: succeeds when every field is a
string. -/
def decodeAttrs : List (String × Json) → Option (List (String × String))
  | [] => some []
  | (k, Json.str v) :: rest =>
    match decodeAttrs rest with
    | some tail => some ((k, v) :: tail)
    | none => none
  | _ :: _ => none

/-- Serialization of an event as written by `sendLogToFile`:
`JSON.stringify` of the object literal with insertion order
`action`, `value`, `date`, `osType`, where a `value` of `undefined`
is omitted from the output. -/
def toJson (e : LogObject) : Json :=
  Json.obj
    ([("action", Json.str e.action)]
      ++ (match e.value with
          | some kvs => [("value", Json.obj (encodeAttrs kvs))]
          | none => [])
      ++ [("date", Json.num e.date), ("osType", Json.str e.osType)])

/-- First field of an object with the given key, as JS property lookup
yields for objects built by `JSON.parse`. -/
def getField : List (String × Json) → String → Option Json
  | [], _ => none
  | (k, v) :: rest, key => if k = key then some v else getField rest key

/-- Semantic reading of a parsed backlog JSON value as an event: the
inverse direction of `toJson`.  The source performs no validation (the
parse result is cast to `LogObject`), so this function is the meaning of
"the parsed value represents event e". -/
def ofJson : Json → Option LogObject
  | Json.obj fs =>
    match getField fs "action", getField fs "date", getField fs "osType" with
    | some (Json.str a), some (Json.num d), some (Json.str o) =>
      match getField fs "value" with
      | none => some ⟨a, d, none, o⟩
      | some (Json.obj kvs) =>
        match decodeAttrs kvs with
        | some v => some ⟨a, d, some v, o⟩
        | none => none
      | some _ => none
    | _, _, _ => none
  | _ => none

theorem decodeAttrs_encodeAttrs (kvs : List (String × String)) :
    decodeAttrs (encodeAttrs kvs) = some kvs := by
  induction kvs with
  | nil => rfl
  | cons hd tl ih =>
    obtain ⟨k, v⟩ := hd
    simp only [encodeAttrs, List.map_cons] at ih ⊢
    simp only [decodeAttrs, ih]

theorem ofJson_toJson (e : LogObject) : ofJson (toJson e) = some e := by
  obtain ⟨a, d, v, o⟩ := e
  cases v with
  | none => rfl
  | some kvs =>
    simp [toJson, ofJson, getField, decodeAttrs_encodeAttrs]

/-- Walks a file name's characters in reverse looking for the last dot;
the accumulator holds the characters already passed (the candidate
extension tail).  Returns none when there is no dot, or when the last dot
is the leading character of the name (Node treats a lone leading dot as a
hidden-file marker, not an extension). -/
def extnameGo : List Char → List Char → Option (List Char)
  | [], _ => none
  | c :: rest, acc =>
    if c = '.' then (if rest.isEmpty then none else some ('.' :: acc))
    else extnameGo rest (c :: acc)

/-- Model of Node `path.extname` on a bare file name (the names returned
by `fs.readdir` contain no directory separators): the suffix starting at
the last dot, or the empty string. -/
def extname (s : String) : String :=
  match extnameGo s.data.reverse [] with
  | some ext => String.mk ext
  | none => ""

/-- ASCII lowercase map, the effect of `toLowerCase()` on the ASCII file
names this logger generates. -/
def lowerStr (s : String) : String := String.mk (s.data.map Char.toLower)

/-- The tagged extension of backlog files ("entry hardware log"). -/
def LOG_EXTENSION : String := ".ehl"

/-- The filter applied in `loadLogFiles`:
`path.extname(fileName).toLowerCase() === LOG_EXTENSION`. -/
def matchesExt (name : String) : Bool :=
  lowerStr (extname name) == LOG_EXTENSION

/-- Oracle describing what the filesystem does when a backlog file is
read and parsed: `event e` means `readFile` succeeds and `JSON.parse`
yields an (object-shaped, hence truthy) value representing event `e`;
`falsy` means the content parses to a falsy JSON value, so the
`logObject && ...` guard skips the push; `notJson` means `JSON.parse`
throws; `unreadable` means `readFile` itself rejects. -/
inductive FileData where
  | event : LogObject → FileData
  | falsy : FileData
  | notJson : FileData
  | unreadable : FileData
deriving DecidableEq, Repr

/-- One file of the backlog directory, together with the oracle outcomes
for reading it (`data`) and for a later `unlink` attempt (`unlinkOk`). -/
structure BFile where
  name : String
  data : FileData
  unlinkOk : Bool
deriving DecidableEq, Repr

/-- The event enqueued by the catch handler of a per-file task:
`this.log('unexpected', { error: e })`, which appends an event with the
current time and the engine's origin metadata (options are set whenever
reconciliation runs).  The rendering of the caught error is abstracted by
the string `err`. -/
def unexpectedLog (now : Int) (osT err : String) : LogObject :=
  ⟨"unexpected", now, some [("error", err)], osT⟩

/-- One per-file task of `loadLogFiles` (statisticsLogger.ts lines
155-167): try { readFile; JSON.parse; push the parsed object if truthy;
unlink } catch { this.log('unexpected', { error: e }) }.  Returns the
queue after the task and whether the file was removed from disk.  Note
that `unlink` sits inside the try after read and parse, so it only runs
when both succeeded. -/
def processFile (now : Int) (osT err : String) (q : List LogObject) (f : BFile) :
    List LogObject × Bool :=
  match f.data with
  | FileData.event e =>
    if f.unlinkOk then (q ++ [e], true)
    else (q ++ [e] ++ [unexpectedLog now osT err], false)
  | FileData.falsy =>
    if f.unlinkOk then (q, true) else (q ++ [unexpectedLog now osT err], false)
  | FileData.notJson => (q ++ [unexpectedLog now osT err], false)
  | FileData.unreadable => (q ++ [unexpectedLog now osT err], false)

/-- The per-file fan-out of `loadLogFiles`: files failing the extension
filter are untouched; each matching file runs its own `processFile` task.
The `Promise.all` fan-out completes the tasks in I/O order; this fold
fixes directory order as the completion order (the theorems below only
use order-insensitive consequences). -/
def loadFilesGo (now : Int) (osT err : String) :
    List LogObject → List BFile → List LogObject × List BFile
  | q, [] => (q, [])
  | q, f :: fs =>
    if matchesExt f.name then
      let r := processFile now osT err q f
      let s := loadFilesGo now osT err r.1 fs
      (s.1, if r.2 then s.2 else f :: s.2)
    else
      let s := loadFilesGo now osT err q fs
      (s.1, f :: s.2)

/-- `loadLogFiles` (statisticsLogger.ts lines 145-172): `ensureDir` and
`readdir` are guarded by the outer try — `dirOk` is the oracle for their
success; on failure the catch only logs to the console and the state is
untouched.  Otherwise every file passing the extension filter is
processed. -/
def loadLogFiles (dirOk : Bool) (now : Int) (osT err : String)
    (q : List LogObject) (disk : List BFile) : List LogObject × List BFile :=
  if dirOk then loadFilesGo now osT err q disk else (q, disk)

/-- Queue entries contributed by one matching file, read off from
`processFile`. -/
def addsCore (now : Int) (osT err : String) (f : BFile) : List LogObject :=
  match f.data with
  | FileData.event e => if f.unlinkOk then [e] else [e, unexpectedLog now osT err]
  | FileData.falsy => if f.unlinkOk then [] else [unexpectedLog now osT err]
  | FileData.notJson => [unexpectedLog now osT err]
  | FileData.unreadable => [unexpectedLog now osT err]

/-- Whether one matching file ends up removed from disk, read off from
`processFile`. -/
def removedCore (f : BFile) : Bool :=
  match f.data with
  | FileData.event _ => f.unlinkOk
  | FileData.falsy => f.unlinkOk
  | FileData.notJson => false
  | FileData.unreadable => false

/-- Queue entries contributed by an arbitrary directory entry. -/
def fileAdds (now : Int) (osT err : String) (f : BFile) : List LogObject :=
  if matchesExt f.name then addsCore now osT err f else []

/-- Whether an arbitrary directory entry is removed by reconciliation. -/
def removedF (f : BFile) : Bool :=
  matchesExt f.name && removedCore f

theorem processFile_eq (now : Int) (osT err : String) (q : List LogObject)
    (f : BFile) :
    processFile now osT err q f = (q ++ addsCore now osT err f, removedCore f) := by
  obtain ⟨n, d, u⟩ := f
  cases d <;> cases u <;> simp [processFile, addsCore, removedCore]

/-- Closed form of the reconciliation fold: the queue is extended by each
file's contribution and the directory keeps exactly the files that were
not removed. -/
theorem loadFilesGo_eq (now : Int) (osT err : String) (fs : List BFile) :
    ∀ q, loadFilesGo now osT err q fs
      = (q ++ (fs.map (fileAdds now osT err)).flatten,
         fs.filter (fun f => !removedF f)) := by
  induction fs with
  | nil => intro q; simp [loadFilesGo]
  | cons f fs ih =>
    intro q
    by_cases hm : matchesExt f.name
    · by_cases hr : removedCore f <;>
        simp [loadFilesGo, hm, hr, processFile_eq, ih, fileAdds, removedF,
          List.filter_cons]
    · simp [loadFilesGo, hm, ih, fileAdds, removedF, List.filter_cons]

/-- The full `Options` shape: required `logPath` and `serverUrl`, the two
intervals with defaults. -/
structure Options where
  logPath : String
  serverUrl : String
  networkCheckInterval : Nat
  logCheckInterval : Nat
deriving DecidableEq, Repr

/-- The runtime shape of the module-level `defaultOptions` object.  Its
declared type only has the two intervals, but `Object.assign` copies the
required fields into the very same object, so after a `setOptions` call
it may also carry `logPath` and `serverUrl`. -/
structure DefaultsObj where
  logPath : Option String
  serverUrl : Option String
  networkCheckInterval : Nat
  logCheckInterval : Nat
deriving DecidableEq, Repr

/-- The module-level `defaultOptions` literal as initially declared:
`{ networkCheckInterval: 1000, logCheckInterval: 1000 }`. -/
def initialDefaultOptions : DefaultsObj :=
  { logPath := none, serverUrl := none,
    networkCheckInterval := 1000, logCheckInterval := 1000 }

/-- The argument shape of `setOptions`: `Partial<Options>` with the two
required fields present (possibly empty strings) and the intervals
optional. -/
structure ConstructorOptions where
  logPath : String
  serverUrl : String
  networkCheckInterval : Option Nat
  logCheckInterval : Option Nat
deriving DecidableEq, Repr

/-- `Object.assign(target, next)`: copies every own property present on
`next` over `target` and returns (a reference to) the mutated `target`. -/
def objectAssign (target : DefaultsObj) (next : ConstructorOptions) : DefaultsObj :=
  { logPath := some next.logPath,
    serverUrl := some next.serverUrl,
    networkCheckInterval := next.networkCheckInterval.getD target.networkCheckInterval,
    logCheckInterval := next.logCheckInterval.getD target.logCheckInterval }

/-- `setOptions` (statisticsLogger.ts lines 53-65): throws when either
required field is falsy, otherwise assigns
`Object.assign(defaultOptions, nextOptions)` to `this.options`.  Because
`Object.assign` mutates its target, the function returns both the new
state of the module-level `defaultOptions` object and the options the
engine now holds (which alias that same object). -/
def setOptions (defaults : DefaultsObj) (next : ConstructorOptions) :
    Except String (DefaultsObj × Options) :=
  if next.logPath = "" then Except.error "logPath property must be presented"
  else if next.serverUrl = "" then Except.error "server url must be presented"
  else
    let d := objectAssign defaults next
    Except.ok (d, ⟨next.logPath, next.serverUrl,
      d.networkCheckInterval, d.logCheckInterval⟩)

/-- The instance fields of `StatisticsLogger` that the dispatch and
facade operations touch, plus the fixed `defaultLoggerInfo.osType`
captured at module load. -/
structure EngineState where
  options : Option Options
  logQueue : List LogObject
  isInternetConnected : Bool
  lastInternetConnectedFlag : Bool
  connectionCheckInterval : Option Nat
  queueCheckInterval : Option Nat
  osType : String
deriving DecidableEq, Repr

/-- The field initializers of the class: no options, empty queue,
`isInternetConnected = true`, `lastInternetConnectedFlag = false`, no
timers. -/
def initialState (osT : String) : EngineState :=
  { options := none, logQueue := [], isInternetConnected := true,
    lastInternetConnectedFlag := false, connectionCheckInterval := none,
    queueCheckInterval := none, osType := osT }

/-- `log(action, value?)` (statisticsLogger.ts lines 91-99): guarded by
`this.options &&`, so without options it does nothing at all; otherwise
it appends the event built from the arguments, `Date.now()` (`now`), and
the spread origin metadata. -/
def log (st : EngineState) (action : String)
    (value : Option (List (String × String))) (now : Int) : EngineState :=
  match st.options with
  | none => st
  | some _ =>
    { st with logQueue := st.logQueue ++ [⟨action, now, value, st.osType⟩] }

/-- One firing of the interval callback installed by
`checkInternetConnected` (statisticsLogger.ts lines 105-109):
`this.isInternetConnected = await isInternetConnected()`.  The probe
outcome is the oracle: `ok b` stores `b`; on `error` the `await` throws
inside the async callback, the assignment is skipped and the rejection
leaves the callback unhandled.  Returns the new cached flag and whether
an exception escaped the callback. -/
def connectivityTick (isConn : Bool) (probe : Except String Bool) :
    Bool × Bool :=
  match probe with
  | Except.ok b => (b, false)
  | Except.error _ => (isConn, true)

/-- `sendLogToServer` (statisticsLogger.ts lines 174-184) acting on the
queue: the axios call outcome is the oracle `sendOk`; on failure the
catch pushes the event back onto the tail of the queue, and nothing is
rethrown. -/
def sendLogToServer (sendOk : Bool) (q : List LogObject) (e : LogObject) :
    List LogObject :=
  if sendOk then q else q ++ [e]

/-- `sendLogToFile` (statisticsLogger.ts lines 186-197) acting on the
backlog directory: a fresh random name `fname` plus the tagged extension,
content `JSON.stringify(logObject)` (a file whose parse yields the event
back, see `ofJson_toJson`); `writeOk` is the write oracle — on failure
the catch only logs and the event is dropped.  The stored `unlinkOk`
oracle value concerns a possible future unlink and is fixed to `true`
here. -/
def sendLogToFile (writeOk : Bool) (fname : String) (disk : List BFile)
    (e : LogObject) : List BFile :=
  if writeOk then disk ++ [⟨fname ++ LOG_EXTENSION, FileData.event e, true⟩]
  else disk

/-- Observable actions of one dispatch tick, in the order the tick body
performs them. -/
inductive DispatchAction where
  | reconcile : DispatchAction
  | deliver : LogObject → DispatchAction
  | persist : LogObject → DispatchAction
deriving DecidableEq, Repr

/-- One firing of the interval callback installed by `checkLoggerQueue`
(statisticsLogger.ts lines 121-143): shift the queue; if an event was
popped, route it — when connected, first `await loadLogFiles()` and set
`lastInternetConnectedFlag` if that flag was false, then
`await sendLogToServer`; when not connected, clear the flag and
`await sendLogToFile`.  All I/O outcomes are the oracle arguments.
Returns the new engine state, the new backlog directory, and the trace of
actions taken. -/
def dispatchTick (st : EngineState) (disk : List BFile)
    (sendOk dirOk writeOk : Bool) (fname : String) (now : Int)
    (err : String) : EngineState × List BFile × List DispatchAction :=
  match st.logQueue with
  | [] => (st, disk, [])
  | e :: rest =>
    if st.isInternetConnected then
      if st.lastInternetConnectedFlag then
        ({ st with logQueue := sendLogToServer sendOk rest e }, disk,
          [DispatchAction.deliver e])
      else
        let r := loadLogFiles dirOk now st.osType err rest disk
        let q2 := sendLogToServer sendOk r.1 e
        ({ st with logQueue := q2, lastInternetConnectedFlag := true }, r.2,
          [DispatchAction.reconcile, DispatchAction.deliver e])
    else
      ({ st with logQueue := rest, lastInternetConnectedFlag := false },
        sendLogToFile writeOk fname disk e,
        [DispatchAction.persist e])

/-- Which of the two interval callbacks a timer runs. -/
inductive TimerKind where
  | probe : TimerKind
  | dispatch : TimerKind
deriving DecidableEq, BEq, Repr

/-- The host timer table: ids handed out by `setInterval` (starting at 1,
so every handle is truthy) and the list of currently active intervals. -/
structure TimerSys where
  nextId : Nat
  active : List (Nat × TimerKind)
deriving DecidableEq, Repr

def initTimers : TimerSys := ⟨1, []⟩

/-- `setInterval`: registers a new active interval and returns its
handle. -/
def setIntervalM (t : TimerSys) (k : TimerKind) : TimerSys × Nat :=
  (⟨t.nextId + 1, t.active ++ [(t.nextId, k)]⟩, t.nextId)

/-- `clearInterval`: removes the interval with the given handle; with an
undefined handle it is a no-op. -/
def clearIntervalM (t : TimerSys) (h : Option Nat) : TimerSys :=
  match h with
  | none => t
  | some i => { t with active := t.active.filter (fun p => p.1 != i) }

/-- `stop()` (statisticsLogger.ts lines 80-83): clears both intervals
unconditionally.  Note the handle fields themselves are not reset. -/
def stop (st : EngineState) (t : TimerSys) : EngineState × TimerSys :=
  (st, clearIntervalM (clearIntervalM t st.connectionCheckInterval)
    st.queueCheckInterval)

/-- `checkInternetConnected` as an installer: starts the probe interval
and stores its handle. -/
def installConnectionCheck (st : EngineState) (t : TimerSys) :
    EngineState × TimerSys :=
  let r := setIntervalM t TimerKind.probe
  ({ st with connectionCheckInterval := some r.2 }, r.1)

/-- `checkLoggerQueue` as an installer: starts the dispatch interval and
stores its handle. -/
def installQueueCheck (st : EngineState) (t : TimerSys) :
    EngineState × TimerSys :=
  let r := setIntervalM t TimerKind.dispatch
  ({ st with queueCheckInterval := some r.2 }, r.1)

/-- `run()` (statisticsLogger.ts lines 67-78): throws without options;
stops both timers when either handle is set (interval handles are always
truthy in Node); then installs the probe timer and the dispatch timer. -/
def run (st : EngineState) (t : TimerSys) :
    Except String (EngineState × TimerSys) :=
  match st.options with
  | none => Except.error "option is not defined"
  | some _ =>
    let s1 :=
      if st.queueCheckInterval.isSome || st.connectionCheckInterval.isSome then
        stop st t
      else (st, t)
    let s2 := installConnectionCheck s1.1 s1.2
    let s3 := installQueueCheck s2.1 s2.2
    Except.ok s3

/-- Counterexample to claim C1 as stated: a backlog file with the
expected extension whose deserialization fails (`JSON.parse` throws) is
NOT removed by reconciliation — it is still in the directory afterwards,
so it will be reprocessed by a later reconciliation; only the
`unexpected` error event is enqueued. -/
theorem corrupt_backlog_file_not_removed :
    loadLogFiles true 0 "Linux" "E" [] [⟨"bad.ehl", FileData.notJson, true⟩]
      = ([unexpectedLog 0 "Linux" "E"], [⟨"bad.ehl", FileData.notJson, true⟩]) := by
  decide

/-- Claim C1, amended: during backlog reconciliation a read or
deserialization failure is isolated to its file — every other file is
processed exactly as it would be on its own, and the failing file only
contributes the `unexpected` error event — but the failing file is NOT
removed: it stays in the backlog directory (and hence is seen again by a
later reconciliation). -/
theorem loadLogFiles_failure_isolated (now : Int) (osT err : String)
    (q : List LogObject) (pre post : List BFile) (f : BFile)
    (hbad : f.data = FileData.notJson ∨ f.data = FileData.unreadable)
    (hm : matchesExt f.name = true) :
    loadLogFiles true now osT err q (pre ++ f :: post)
      = (q ++ ((pre.map (fileAdds now osT err)).flatten
            ++ unexpectedLog now osT err
              :: (post.map (fileAdds now osT err)).flatten),
         pre.filter (fun g => !removedF g)
           ++ f :: post.filter (fun g => !removedF g)) := by
  have hadds : fileAdds now osT err f = [unexpectedLog now osT err] := by
    rcases hbad with h | h <;> simp [fileAdds, hm, addsCore, h]
  have hrem : removedF f = false := by
    rcases hbad with h | h <;> simp [removedF, removedCore, h]
  simp [loadLogFiles, loadFilesGo_eq, hadds, hrem, List.filter_cons]

/-- Witness for the amended claim C1 at a concrete input: one good file
and one corrupt file; the good file is enqueued and removed, the corrupt
one contributes the error event and remains on disk. -/
theorem loadLogFiles_failure_isolated_witness :
    loadLogFiles true 0 "Linux" "E" []
        [⟨"good.ehl", FileData.event ⟨"click", 7, none, "Linux"⟩, true⟩,
         ⟨"bad.ehl", FileData.notJson, true⟩]
      = ([⟨"click", 7, none, "Linux"⟩, unexpectedLog 0 "Linux" "E"],
         [⟨"bad.ehl", FileData.notJson, true⟩]) :=
  loadLogFiles_failure_isolated 0 "Linux" "E" []
    [⟨"good.ehl", FileData.event ⟨"click", 7, none, "Linux"⟩, true⟩] []
    ⟨"bad.ehl", FileData.notJson, true⟩ (Or.inl rfl) (by decide)

/-- Claim C2, evaluated at the failing input: because
`Object.assign(defaultOptions, nextOptions)` mutates the module-level
`defaultOptions` object, an optional field supplied in an earlier
`setOptions` call survives into the result of a later call that omits
it.  Calling `setOptions` with `networkCheckInterval = 5000` and then
again without it yields 5000, although the built-in default is 1000 and
the second call supplied no interval. -/
theorem setOptions_second_call_keeps_stale_interval :
    (match setOptions initialDefaultOptions
        ⟨"/logs", "http://collector", some 5000, none⟩ with
     | Except.ok p =>
       match setOptions p.1 ⟨"/logs", "http://collector", none, none⟩ with
       | Except.ok p2 => some p2.2.networkCheckInterval
       | Except.error _ => none
     | Except.error _ => none) = some 5000
    ∧ initialDefaultOptions.networkCheckInterval = 1000 := by
  exact ⟨rfl, rfl⟩

/-- Counterexample to claim C3 as stated: when the probe invocation
fails, the cached connectivity boolean keeps its previous value (here it
stays `true`, it is not treated as `false`), and the rejection escapes
the async timer callback (second component `true`). -/
theorem probe_failure_escapes_and_flag_unchanged :
    connectivityTick true (Except.error "probe failed") = (true, true) := rfl

/-- Claim C3, amended: if the connectivity probe invocation fails on a
monitor tick, the rejection escapes the async timer callback as an
unhandled rejection (the callback has no try/catch) and the cached
connectivity boolean retains its previous value for that cycle. -/
theorem connectivityTick_failure_keeps_flag (b : Bool) (msg : String) :
    connectivityTick b (Except.error msg) = (b, true) := rfl

/-- Claim C4: when network delivery of the popped event fails, the event
is pushed back onto the tail of the Pending Queue (behind events
enqueued in the meantime), the tick still only reports a delivery
attempt (no failure is surfaced), and — when it was the only event — the
next tick pops it and retries delivery. -/
theorem delivery_failure_requeues (st : EngineState) (disk : List BFile)
    (dOk wOk : Bool) (fn err : String) (now : Int)
    (sOk2 dOk2 wOk2 : Bool) (fn2 err2 : String) (now2 : Int)
    (e : LogObject) (rest : List LogObject)
    (hq : st.logQueue = e :: rest) (hconn : st.isInternetConnected = true)
    (hlast : st.lastInternetConnectedFlag = true) :
    (dispatchTick st disk false dOk wOk fn now err).1.logQueue = rest ++ [e]
    ∧ (dispatchTick st disk false dOk wOk fn now err).2.2
        = [DispatchAction.deliver e]
    ∧ (rest = [] →
        (dispatchTick (dispatchTick st disk false dOk wOk fn now err).1
            (dispatchTick st disk false dOk wOk fn now err).2.1
            sOk2 dOk2 wOk2 fn2 now2 err2).2.2
          = [DispatchAction.deliver e]) := by
  refine ⟨?_, ?_, ?_⟩
  · simp [dispatchTick, hq, hconn, hlast, sendLogToServer]
  · simp [dispatchTick, hq, hconn, hlast]
  · intro hrest
    subst hrest
    simp [dispatchTick, hq, hconn, hlast, sendLogToServer]

/-- Witness for claim C4 at a concrete input. -/
theorem delivery_failure_requeues_witness :
    (dispatchTick
        ⟨some ⟨"/l", "u", 1000, 1000⟩, [⟨"a", 1, none, "L"⟩], true, true,
          none, none, "L"⟩ [] false true true "f" 0 "E").1.logQueue
      = [] ++ [⟨"a", 1, none, "L"⟩]
    ∧ (dispatchTick
        ⟨some ⟨"/l", "u", 1000, 1000⟩, [⟨"a", 1, none, "L"⟩], true, true,
          none, none, "L"⟩ [] false true true "f" 0 "E").2.2
      = [DispatchAction.deliver ⟨"a", 1, none, "L"⟩]
    ∧ (([] : List LogObject) = [] →
        (dispatchTick (dispatchTick
            ⟨some ⟨"/l", "u", 1000, 1000⟩, [⟨"a", 1, none, "L"⟩], true, true,
              none, none, "L"⟩ [] false true true "f" 0 "E").1
          (dispatchTick
            ⟨some ⟨"/l", "u", 1000, 1000⟩, [⟨"a", 1, none, "L"⟩], true, true,
              none, none, "L"⟩ [] false true true "f" 0 "E").2.1
          true true true "g" 2 "E2").2.2
        = [DispatchAction.deliver ⟨"a", 1, none, "L"⟩]) :=
  delivery_failure_requeues
    ⟨some ⟨"/l", "u", 1000, 1000⟩, [⟨"a", 1, none, "L"⟩], true, true,
      none, none, "L"⟩ [] true true "f" "E" 0 true true true "g" "E2" 2
    ⟨"a", 1, none, "L"⟩ [] rfl rfl rfl

/-- Claim C5: a dispatch tick that fires with an empty Pending Queue has
no effect at all — the engine state, the backlog directory and the
action trace are all unchanged; in particular no reconciliation, no disk
write and no flag update happens. -/
theorem empty_queue_tick_noop (st : EngineState) (disk : List BFile)
    (sOk dOk wOk : Bool) (fn : String) (now : Int) (err : String)
    (h : st.logQueue = []) :
    dispatchTick st disk sOk dOk wOk fn now err = (st, disk, []) := by
  simp [dispatchTick, h]

/-- Witness for claim C5 at a concrete input. -/
theorem empty_queue_tick_noop_witness :
    dispatchTick (initialState "L") [⟨"x.ehl", FileData.notJson, true⟩]
        true true true "f" 0 "E"
      = (initialState "L", [⟨"x.ehl", FileData.notJson, true⟩], []) :=
  empty_queue_tick_noop (initialState "L") [⟨"x.ehl", FileData.notJson, true⟩]
    true true true "f" 0 "E" rfl

/-- Claim C6: calling `run()` twice in succession (starting from a fresh
configured engine and an empty timer table) leaves exactly one active
probe timer and one active dispatch timer; the second call first cleared
the two timers the first call installed. -/
theorem run_twice_single_timers (osT : String) (o : Options) :
    ∃ st1 t1 st2 t2,
      run { initialState osT with options := some o } initTimers
          = Except.ok (st1, t1)
      ∧ run st1 t1 = Except.ok (st2, t2)
      ∧ t2.active = [(3, TimerKind.probe), (4, TimerKind.dispatch)]
      ∧ (t2.active.filter (fun p => p.2 == TimerKind.probe)).length = 1
      ∧ (t2.active.filter (fun p => p.2 == TimerKind.dispatch)).length = 1 := by
  exact ⟨_, _, _, _, rfl, rfl, rfl, rfl, rfl⟩

/-- Claim C7: calling `log` before configuration has been set is a
silent no-op — the function throws nothing (it is total) and returns the
state unchanged, so an empty Pending Queue stays empty. -/
theorem log_unconfigured_noop (st : EngineState) (h : st.options = none)
    (a : String) (v : Option (List (String × String))) (now : Int) :
    log st a v now = st := by
  simp [log, h]

/-- Witness for claim C7 at a concrete input: on the freshly constructed
engine the queue stays empty. -/
theorem log_unconfigured_noop_witness :
    log (initialState "Linux") "click" none 0 = initialState "Linux" :=
  log_unconfigured_noop (initialState "Linux") rfl "click" none 0

/-- Claim C8: an event written to a backlog file by the disk fallback
and then read back during reconciliation round-trips losslessly: the
serialized form decodes to the very same event (action, timestamp,
optional attribute map, osType origin field), and running reconciliation
over a directory holding exactly that file enqueues the event and
removes the file. -/
theorem backlog_roundtrip (e : LogObject) (q : List LogObject)
    (fname : String) (now : Int) (osT err : String)
    (hext : matchesExt (fname ++ LOG_EXTENSION) = true) :
    ofJson (toJson e) = some e
    ∧ loadLogFiles true now osT err q (sendLogToFile true fname [] e)
        = (q ++ [e], []) := by
  refine ⟨ofJson_toJson e, ?_⟩
  simp [sendLogToFile, loadLogFiles, loadFilesGo, hext, processFile]

/-- Witness for claim C8 at a concrete event and file name. -/
theorem backlog_roundtrip_witness :
    ofJson (toJson ⟨"click", 7, some [("id", "7")], "Linux"⟩)
        = some ⟨"click", 7, some [("id", "7")], "Linux"⟩
    ∧ loadLogFiles true 0 "Linux" "E" []
        (sendLogToFile true "ab12" [] ⟨"click", 7, some [("id", "7")], "Linux"⟩)
        = ([] ++ [⟨"click", 7, some [("id", "7")], "Linux"⟩], []) :=
  backlog_roundtrip ⟨"click", 7, some [("id", "7")], "Linux"⟩ [] "ab12" 0
    "Linux" "E" (by decide)

/-- Claim C9: `lastInternetConnectedFlag` starts `false`, so the first
dispatch tick that pops an event while the cached connectivity flag is
`true` runs backlog reconciliation before attempting delivery of that
event — even though connectivity was never observed down — and then sets
the flag. -/
theorem first_connected_pop_reconciles (st : EngineState)
    (disk : List BFile) (sOk dOk wOk : Bool) (fn : String) (now : Int)
    (err : String) (e : LogObject) (rest : List LogObject)
    (hlast : st.lastInternetConnectedFlag = false)
    (hconn : st.isInternetConnected = true)
    (hq : st.logQueue = e :: rest) :
    (dispatchTick st disk sOk dOk wOk fn now err).2.2
        = [DispatchAction.reconcile, DispatchAction.deliver e]
    ∧ (dispatchTick st disk sOk dOk wOk fn now err).1.lastInternetConnectedFlag
        = true
    ∧ (initialState st.osType).lastInternetConnectedFlag = false := by
  simp [dispatchTick, hq, hconn, hlast, initialState]

/-- Witness for claim C9 at a concrete input. -/
theorem first_connected_pop_reconciles_witness :
    (dispatchTick
        ⟨some ⟨"/l", "u", 1000, 1000⟩, [⟨"a", 1, none, "L"⟩], true, false,
          none, none, "L"⟩ [] true true true "f" 0 "E").2.2
      = [DispatchAction.reconcile, DispatchAction.deliver ⟨"a", 1, none, "L"⟩]
    ∧ (dispatchTick
        ⟨some ⟨"/l", "u", 1000, 1000⟩, [⟨"a", 1, none, "L"⟩], true, false,
          none, none, "L"⟩ [] true true true "f" 0 "E").1.lastInternetConnectedFlag
      = true
    ∧ (initialState "L").lastInternetConnectedFlag = false :=
  first_connected_pop_reconciles
    ⟨some ⟨"/l", "u", 1000, 1000⟩, [⟨"a", 1, none, "L"⟩], true, false,
      none, none, "L"⟩ [] true true true "f" 0 "E" ⟨"a", 1, none, "L"⟩ []
    rfl rfl rfl

/-- Claim C10: the cached connectivity flag is initialized to `true`, so
while it still has its initial value every popped event is routed to
network delivery — the tick trace ends with a delivery attempt of the
popped event and contains no disk-persist action. -/
theorem initial_connectivity_delivers (osT : String) (st : EngineState)
    (disk : List BFile) (sOk dOk wOk : Bool) (fn : String) (now : Int)
    (err : String) (e : LogObject) (rest : List LogObject)
    (hconn : st.isInternetConnected = (initialState osT).isInternetConnected)
    (hq : st.logQueue = e :: rest) :
    (initialState osT).isInternetConnected = true
    ∧ (dispatchTick st disk sOk dOk wOk fn now err).2.2.getLast?
        = some (DispatchAction.deliver e)
    ∧ ∀ x, DispatchAction.persist x
        ∉ (dispatchTick st disk sOk dOk wOk fn now err).2.2 := by
  have h1 : st.isInternetConnected = true := by
    simpa [initialState] using hconn
  refine ⟨rfl, ?_, ?_⟩
  · cases hl : st.lastInternetConnectedFlag <;>
      simp [dispatchTick, hq, h1, hl]
  · intro x
    cases hl : st.lastInternetConnectedFlag <;>
      simp [dispatchTick, hq, h1, hl]

/-- Witness for claim C10 at a concrete input. -/
theorem initial_connectivity_delivers_witness :
    (initialState "L").isInternetConnected = true
    ∧ (dispatchTick
        ⟨some ⟨"/l", "u", 1000, 1000⟩, [⟨"a", 1, none, "L"⟩], true, true,
          none, none, "L"⟩ [] true true true "f" 0 "E").2.2.getLast?
      = some (DispatchAction.deliver ⟨"a", 1, none, "L"⟩)
    ∧ ∀ x, DispatchAction.persist x
        ∉ (dispatchTick
            ⟨some ⟨"/l", "u", 1000, 1000⟩, [⟨"a", 1, none, "L"⟩], true, true,
              none, none, "L"⟩ [] true true true "f" 0 "E").2.2 :=
  initial_connectivity_delivers "L"
    ⟨some ⟨"/l", "u", 1000, 1000⟩, [⟨"a", 1, none, "L"⟩], true, true,
      none, none, "L"⟩ [] true true true "f" 0 "E" ⟨"a", 1, none, "L"⟩ []
    rfl rfl

end StatisticsLogger
